import Mathlib

/-!
Go-AWS-s3-Upload: a shallow embedding of `main.go`.

The program talks to S3 through three Go interfaces (`S3client`, `S3Uploader`,
`s3Downloader`).  An interface value is modelled as a record of transition
functions over an arbitrary remote state `σ`: a call takes the state before the
call and its input, and yields the Go result tuple and the state after the call.

Go pointers (`*string`, `*s3.ListBucketsOutput`, ...) are `Option`s, `nil` being
`none`; a nil dereference is the outcome `panicked`.  A Go `error` is an
`Option GoError`, `nil` being `none`.  Every function returns, besides its Go
result, the trace of the effects it performed, in program order: calls on the
interfaces (with the request they were given), lines sent to the standard
logger, and text written to standard output.
-/

namespace S3Upload

/-! ## Data model -/

/-- A non-nil Go `error`; `msg` is what its `Error()` method returns. -/
structure GoError where
  msg : String
deriving DecidableEq, Repr

/-- Go `fmt.Errorf(format, err)` for a format that is a literal text followed by
one `%s` verb: the text followed by `err.Error()`. -/
def Errorf (text : String) (err : GoError) : GoError :=
  ⟨text ++ err.msg⟩

/-- Go `types.Bucket`; only the field the program reads. `Name` is a `*string`. -/
structure Bucket where
  Name : Option String
deriving DecidableEq, Repr

/-- Go `s3.ListBucketsInput`; the program passes the zero value. -/
structure ListBucketsInput where
deriving DecidableEq, Repr

/-- Go `s3.ListBucketsOutput`; only the field the program reads. -/
structure ListBucketsOutput where
  Buckets : List Bucket
deriving DecidableEq, Repr

/-- Go `s3.CreateBucketInput`; only the field the program sets. -/
structure CreateBucketInput where
  Bucket : Option String
deriving DecidableEq, Repr

/-- Go `s3.CreateBucketOutput`; only the field the program reads. -/
structure CreateBucketOutput where
  Location : Option String
deriving DecidableEq, Repr

/-- Go `s3.PutObjectInput`; only the fields the program sets. `Body` is an
`io.Reader`, modelled by the bytes it yields. -/
structure PutObjectInput where
  Bucket : Option String
  Key : Option String
  Body : List UInt8
deriving DecidableEq, Repr

/-- Go `manager.UploadOutput`; the program discards it. -/
structure UploadOutput where
  Location : String
deriving DecidableEq, Repr

/-- Go `s3.GetObjectInput`; only the fields the program sets. -/
structure GetObjectInput where
  Bucket : Option String
  Key : Option String
deriving DecidableEq, Repr

/-- Go `strings.NewReader(s)`: a reader over the UTF-8 bytes of `s`. -/
def NewReader (s : String) : List UInt8 :=
  s.toUTF8.data.toList

/-- Go `manager.WriteAtBuffer`: an in-memory `io.WriterAt`. Only the contents
are modelled, not the capacity. -/
structure WriteAtBuffer where
  buf : List UInt8
deriving DecidableEq, Repr

/-- Go `manager.NewWriteAtBuffer(buf)`. -/
def NewWriteAtBuffer (buf : List UInt8) : WriteAtBuffer :=
  ⟨buf⟩

/-- Go `(*WriteAtBuffer).WriteAt(p, pos)`: the buffer is grown with zero bytes
up to `pos + len(p)` when shorter, then `p` is copied in at offset `pos`. -/
def WriteAtBuffer.WriteAt (b : WriteAtBuffer) (p : List UInt8) (pos : Nat) : WriteAtBuffer :=
  let expLen := pos + p.length
  let grown := if b.buf.length < expLen then b.buf ++ List.replicate (expLen - b.buf.length) 0 else b.buf
  ⟨grown.take pos ++ p ++ grown.drop (pos + p.length)⟩

/-- Go `(*WriteAtBuffer).Bytes()`. -/
def WriteAtBuffer.Bytes (b : WriteAtBuffer) : List UInt8 :=
  b.buf

/-- Interface `S3client` (main.go, lines 27 to 30). -/
structure S3client (σ : Type) where
  ListBuckets : σ → ListBucketsInput → (Option ListBucketsOutput × Option GoError) × σ
  CreateBucket : σ → CreateBucketInput → (Option CreateBucketOutput × Option GoError) × σ

/-- Interface `S3Uploader` (main.go, lines 32 to 34). -/
structure S3Uploader (σ : Type) where
  Upload : σ → PutObjectInput → (Option UploadOutput × Option GoError) × σ

/-- Interface `s3Downloader` (main.go, lines 36 to 38). `Download` receives the
`io.WriterAt` it writes to and leaves it in some state; `n` is an `int64`. -/
structure s3Downloader (σ : Type) where
  Download : σ → WriteAtBuffer → GetObjectInput → (Int × Option GoError) × WriteAtBuffer × σ

/-! ## Effects, outcomes, program state -/

/-- One observable effect of the program. -/
inductive Event where
  | LoadDefaultConfig (region : String)
  | ListBuckets (input : ListBucketsInput)
  | CreateBucket (input : CreateBucketInput)
  | Upload (input : PutObjectInput)
  | Download (input : GetObjectInput)
  | log (line : String)
  | stdout (text : String)
deriving DecidableEq, Repr

/-- How a Go function call ends: it returns a value, or it panics. -/
inductive Outcome (α : Type) where
  | returned (value : α)
  | panicked (reason : String)
deriving DecidableEq, Repr

/-- The state a function of the program runs in: the remote service and the
package-level variable `err` (main.go, line 19). -/
structure State (σ : Type) where
  remote : σ
  err : Option GoError

/-- The result of running a function: final state, effects in order, outcome. -/
structure Run (σ α : Type) where
  state : State σ
  trace : List Event
  outcome : Outcome α

/-- The runtime error raised by dereferencing a nil pointer. -/
def nilDereference : String :=
  "runtime error: invalid memory address or nil pointer dereference"

/-- The requests of the `CreateBucket` calls in a trace, in order. -/
def createBucketCalls (trace : List Event) : List CreateBucketInput :=
  trace.filterMap fun ev =>
    match ev with
    | .CreateBucket input => some input
    | _ => none

/-- The requests of the `Upload` calls in a trace, in order. -/
def uploadCalls (trace : List Event) : List PutObjectInput :=
  trace.filterMap fun ev =>
    match ev with
    | .Upload input => some input
    | _ => none

/-- The requests of the `Download` calls in a trace, in order. -/
def downloadCalls (trace : List Event) : List GetObjectInput :=
  trace.filterMap fun ev =>
    match ev with
    | .Download input => some input
    | _ => none

/-! ## `createS3Bucket` (main.go, lines 87 to 115) -/

/-- The `for k, bucketsName := range allBuckets.Buckets` loop (lines 96 to 102),
from index `k` on, with the current value of `discoveredBucket`. It yields the
final `discoveredBucket`, or panics at the first bucket whose `Name` is nil, and
the text printed on the way. -/
def scanBuckets (bucketName : String) : Nat → List Bucket → Bool → Outcome Bool × List Event
  | _, [], discoveredBucket => (.returned discoveredBucket, [])
  | k, bucketsName :: rest, discoveredBucket =>
    match bucketsName.Name with
    | none => (.panicked nilDereference, [])
    | some name =>
      let line := Event.stdout (toString k ++ ", " ++ name ++ "\n")
      if name = bucketName then
        let next := scanBuckets bucketName (k + 1) rest true
        (next.1, line :: Event.stdout ("Found s3 Bucket " ++ bucketName ++ "\n") :: next.2)
      else
        let next := scanBuckets bucketName (k + 1) rest discoveredBucket
        (next.1, line :: next.2)

/-- Function `createS3Bucket`. The listing error is assigned to the package-level
`err` and logged, and execution goes on to the loop (lines 92 to 94). -/
def createS3Bucket {σ : Type} (s3Client : S3client σ) (bucketName : String)
    (st : State σ) : Run σ (Option GoError) :=
  let listed := s3Client.ListBuckets st.remote {}
  let allBuckets := listed.1.1
  let st1 : State σ := ⟨listed.2, listed.1.2⟩
  let tr1 : List Event := Event.ListBuckets {} ::
    (match listed.1.2 with
     | some e => [Event.log ("could not list the s3 buckets " ++ e.msg)]
     | none => [])
  match allBuckets with
  | none => ⟨st1, tr1, .panicked nilDereference⟩
  | some out =>
    match scanBuckets bucketName 0 out.Buckets false with
    | (.panicked reason, tr2) => ⟨st1, tr1 ++ tr2, .panicked reason⟩
    | (.returned discoveredBucket, tr2) =>
      if !discoveredBucket then
        let input : CreateBucketInput := ⟨some bucketName⟩
        let created := s3Client.CreateBucket st1.remote input
        let st2 : State σ := ⟨created.2, st1.err⟩
        let tr3 := tr1 ++ tr2 ++ [Event.CreateBucket input]
        match created.1.2 with
        | some e => ⟨st2, tr3, .returned (some (Errorf "unable to create s3 bucket " e))⟩
        | none =>
          match created.1.1 with
          | none => ⟨st2, tr3, .panicked nilDereference⟩
          | some bucketOutput =>
            match bucketOutput.Location with
            | none => ⟨st2, tr3, .panicked nilDereference⟩
            | some location =>
              ⟨st2, tr3 ++ [Event.stdout ("s3 Bucket location is " ++ location ++ "\n")],
                .returned none⟩
      else
        ⟨st1, tr1 ++ tr2, .returned none⟩

/-! ## `uploadToS3Bucket` (main.go, lines 118 to 128) -/

/-- Function `uploadToS3Bucket`. Its `err` is a local variable. -/
def uploadToS3Bucket {σ : Type} (uploader : S3Uploader σ) (bucketName : String)
    (st : State σ) : Run σ (Option GoError) :=
  let input : PutObjectInput :=
    ⟨some bucketName, some "test/test.text", NewReader "Hello Go!!!"⟩
  let uploaded := uploader.Upload st.remote input
  let st1 : State σ := ⟨uploaded.2, st.err⟩
  match uploaded.1.2 with
  | some e => ⟨st1, [Event.Upload input], .returned (some (Errorf "unable to upload to s3 bucket " e))⟩
  | none => ⟨st1, [Event.Upload input], .returned none⟩

/-! ## `downloadFromS3` (main.go, lines 131 to 146) -/

/-- Function `downloadFromS3`. The result pair is `([]byte, error)`; a nil slice
is `none`. `len` is non-negative, so `int64(numBytesReceived)` is exact. -/
def downloadFromS3 {σ : Type} (downloader : s3Downloader σ) (bucketName : String)
    (st : State σ) : Run σ (Option (List UInt8) × Option GoError) :=
  let buffer := NewWriteAtBuffer []
  let input : GetObjectInput := ⟨some bucketName, some "test.txt"⟩
  let downloaded := downloader.Download st.remote buffer input
  let numBytes : Int := downloaded.1.1
  let buffer := downloaded.2.1
  let st1 : State σ := ⟨downloaded.2.2, st.err⟩
  match downloaded.1.2 with
  | some e => ⟨st1, [Event.Download input], .returned (none, some (Errorf "download error: " e))⟩
  | none =>
    let numBytesReceived : Nat := buffer.Bytes.length
    if numBytes ≠ (numBytesReceived : Int) then
      ⟨st1, [Event.Download input],
        .returned (none, some ⟨"number of bytes recevied does not match: " ++ toString numBytes
          ++ " vs " ++ toString numBytesReceived⟩)⟩
    else
      ⟨st1, [Event.Download input], .returned (some buffer.Bytes, none)⟩

/-! ## `initS3Client` and `main` (main.go, lines 50 to 84) -/

/-- The SDK functions `main` reaches the service through: `config.LoadDefaultConfig`
with a region (its error result; the configuration itself is not inspected),
`s3.NewFromConfig`, `manager.NewUploader` and `manager.NewDownloader`. -/
structure SDK (σ : Type) where
  LoadDefaultConfig : String → Option GoError
  NewFromConfig : S3client σ
  NewUploader : S3client σ → S3Uploader σ
  NewDownloader : S3client σ → s3Downloader σ

/-- Constant `bucketName` (main.go, line 23). -/
def bucketName : String :=
  "testing-aws-go-yjhu"

/-- Function `initS3Client`. The result pair is `(*s3.Client, error)`. -/
def initS3Client {σ : Type} (sdk : SDK σ) (region : String)
    (st : State σ) : Run σ (Option (S3client σ) × Option GoError) :=
  match sdk.LoadDefaultConfig region with
  | some err =>
    ⟨st, [Event.LoadDefaultConfig region], .returned (none, some (Errorf "unable to load SDK config " err))⟩
  | none => ⟨st, [Event.LoadDefaultConfig region], .returned (some sdk.NewFromConfig, none)⟩

/-- How the process ends: the final state, the effects in order, the exit code. -/
structure Exit (σ : Type) where
  state : State σ
  trace : List Event
  exitCode : Nat

/-- The exit code of a Go process that ends in an unrecovered panic. -/
def panicExitCode : Nat :=
  2

/-- Function `main`, started on a remote service in state `remote`. Each
`os.Exit(1)` ends the run with code 1; returning from `main` ends it with code 0.
Every step result is assigned to the package-level `err` before it is tested. -/
def main {σ : Type} (sdk : SDK σ) (remote : σ) : Exit σ :=
  let init := initS3Client sdk "us-east-1" ⟨remote, none⟩
  match init.outcome with
  | .panicked _ => ⟨init.state, init.trace, panicExitCode⟩
  | .returned (_, some e) =>
    ⟨⟨init.state.remote, some e⟩, init.trace ++ [Event.log ("init S3 Client error: " ++ e.msg)], 1⟩
  | .returned (none, none) =>
    ⟨⟨init.state.remote, none⟩, init.trace, panicExitCode⟩
  | .returned (some s3Client, none) =>
    let created := createS3Bucket s3Client bucketName ⟨init.state.remote, none⟩
    match created.outcome with
    | .panicked _ => ⟨created.state, init.trace ++ created.trace, panicExitCode⟩
    | .returned (some e) =>
      ⟨⟨created.state.remote, some e⟩, init.trace ++ created.trace ++ [Event.log e.msg], 1⟩
    | .returned none =>
      let uploaded := uploadToS3Bucket (sdk.NewUploader s3Client) bucketName ⟨created.state.remote, none⟩
      match uploaded.outcome with
      | .panicked _ => ⟨uploaded.state, init.trace ++ created.trace ++ uploaded.trace, panicExitCode⟩
      | .returned (some e) =>
        ⟨⟨uploaded.state.remote, some e⟩,
          init.trace ++ created.trace ++ uploaded.trace ++ [Event.log e.msg], 1⟩
      | .returned none =>
        let tr := init.trace ++ created.trace ++ uploaded.trace ++ [Event.stdout "Upload Completed\n"]
        let downloaded := downloadFromS3 (sdk.NewDownloader s3Client) bucketName ⟨uploaded.state.remote, none⟩
        match downloaded.outcome with
        | .panicked _ => ⟨downloaded.state, tr ++ downloaded.trace, panicExitCode⟩
        | .returned (_, some e) =>
          ⟨⟨downloaded.state.remote, some e⟩, tr ++ downloaded.trace ++ [Event.log e.msg], 1⟩
        | .returned (_, none) =>
          ⟨⟨downloaded.state.remote, none⟩,
            tr ++ downloaded.trace ++ [Event.stdout "Download Completed\n"], 0⟩

/-- The step of `main` an effect belongs to: 0 client init, 1 bucket ensuring,
2 upload, 3 download; logging and printing belong to none. -/
def Event.step : Event → Option Nat
  | .LoadDefaultConfig _ => some 0
  | .ListBuckets _ => some 1
  | .CreateBucket _ => some 1
  | .Upload _ => some 2
  | .Download _ => some 3
  | .log _ => none
  | .stdout _ => none

/-- The steps that were invoked in a trace, one entry per service call, in order. -/
def steps (trace : List Event) : List Nat :=
  trace.filterMap Event.step

/-! ## Test doubles (main_test.go) -/

/-- Type `MockS3Client` with its two methods (main_test.go, lines 12 to 22). -/
def MockS3Client (ListBucketOutput : Option ListBucketsOutput)
    (CreateBucketOutput : Option CreateBucketOutput) : S3client Unit where
  ListBuckets := fun s _ => ((ListBucketOutput, none), s)
  CreateBucket := fun s _ => ((CreateBucketOutput, none), s)

/-- Type `MockS3Uploader` with its method (main_test.go, lines 24 to 30). -/
def MockS3Uploader (UploadOutput : Option UploadOutput) : S3Uploader Unit where
  Upload := fun s _ => ((UploadOutput, none), s)

/-- The call made by `TestCreateS3Bucket` (main_test.go, lines 36 to 50). -/
def TestCreateS3Bucket : Run Unit (Option GoError) :=
  createS3Bucket
    (MockS3Client (some ⟨[⟨some "test-bucket"⟩, ⟨some "test-bucket-2"⟩]⟩) (some ⟨some "us-east-1"⟩))
    "test-bucket-1" ⟨(), none⟩

/-- The call made by `TestUploadToS3Bucket` (main_test.go, lines 58 to 61). -/
def TestUploadToS3Bucket : Run Unit (Option GoError) :=
  uploadToS3Bucket (MockS3Uploader (some ⟨""⟩)) "testdata/test.txt" ⟨(), none⟩

/-- A client whose listing fails with no output, as the SDK client does on a
failed request; its `CreateBucket` would succeed. -/
def deniedListingClient : S3client Unit where
  ListBuckets := fun s _ => ((none, some ⟨"AccessDenied"⟩), s)
  CreateBucket := fun s _ => ((some ⟨some "us-east-1"⟩, none), s)

/-- A client whose listing succeeds with one bucket that has no `Name`, and
whose `CreateBucket` fails. -/
def namelessListingClient : S3client Unit where
  ListBuckets := fun s _ => ((some ⟨[⟨none⟩]⟩, none), s)
  CreateBucket := fun s _ => ((none, some ⟨"BucketAlreadyExists"⟩), s)

/-- A client over a remote state that is the list of existing bucket names:
listing reports them, creating a bucket that exists fails, creating a new one
adds it. -/
def nameSetClient : S3client (List String) where
  ListBuckets := fun s _ => ((some ⟨s.map fun n => ⟨some n⟩⟩, none), s)
  CreateBucket := fun s input =>
    match input.Bucket with
    | none => ((none, some ⟨"InvalidBucketName"⟩), s)
    | some n =>
      if n ∈ s then ((none, some ⟨"BucketAlreadyOwnedByYou"⟩), s)
      else ((some ⟨some ("/" ++ n)⟩, none), s ++ [n])

/-- A client that lists two named buckets and refuses every creation. -/
def refusingClient : S3client Unit where
  ListBuckets := fun s _ => ((some ⟨[⟨some "test-bucket"⟩, ⟨some "test-bucket-2"⟩]⟩, none), s)
  CreateBucket := fun s _ => ((none, some ⟨"AccessDenied"⟩), s)

/-- A downloader that writes the five bytes of "Hello" at offset 0 of the
writer it is given and reports the count `n`, with no error. -/
def helloDownloader (n : Int) : s3Downloader Unit where
  Download := fun s w _ => ((n, none), w.WriteAt [72, 101, 108, 108, 111] 0, s)

/-- A downloader that writes two bytes, reports `n`, and fails. -/
def failingDownloader (n : Int) : s3Downloader Unit where
  Download := fun s w _ => ((n, some ⟨"NoSuchKey"⟩), w.WriteAt [72, 101] 0, s)

/-- An uploader whose `Upload` fails with the given output. -/
def failingUploader (output : Option UploadOutput) : S3Uploader Unit where
  Upload := fun s _ => ((output, some ⟨"AccessDenied"⟩), s)

/-- An SDK whose configuration loads, over a remote state that is the list of
existing bucket names; uploads succeed and downloads deliver five bytes. -/
def healthySDK : SDK (List String) where
  LoadDefaultConfig := fun _ => none
  NewFromConfig := nameSetClient
  NewUploader := fun _ => ⟨fun s _ => ((some ⟨"/test/test.text"⟩, none), s)⟩
  NewDownloader := fun _ => ⟨fun s w _ => ((5, none), w.WriteAt [72, 101, 108, 108, 111] 0, s)⟩

/-- An SDK whose configuration loads and whose client fails every listing with
no output. -/
def deniedListingSDK : SDK Unit where
  LoadDefaultConfig := fun _ => none
  NewFromConfig := deniedListingClient
  NewUploader := fun _ => MockS3Uploader (some ⟨""⟩)
  NewDownloader := fun _ => helloDownloader 5

/-- On a list of named buckets the scan returns, and its result is the incoming
flag or-ed with "some bucket has the target name". -/
theorem scanBuckets_named (bucketName : String) (buckets : List Bucket) :
    ∀ (k : Nat) (discovered : Bool), (∀ b ∈ buckets, b.Name ≠ none) →
      (scanBuckets bucketName k buckets discovered).1
        = .returned (discovered || decide (some bucketName ∈ buckets.map Bucket.Name)) := by
  induction buckets with
  | nil => intro k discovered _; simp [scanBuckets]
  | cons b rest ih =>
    intro k discovered hnamed
    have hrest : ∀ x ∈ rest, x.Name ≠ none := fun x hx => hnamed x (List.mem_cons_of_mem _ hx)
    have hb : b.Name ≠ none := hnamed b (List.mem_cons_self _ _)
    cases hname : b.Name with
    | none => exact absurd hname hb
    | some name =>
      by_cases heq : name = bucketName
      · simp [scanBuckets, hname, heq, ih (k + 1) true hrest]
      · have hne : ¬ bucketName = name := fun h => heq h.symm
        simp [scanBuckets, hname, heq, hne, ih (k + 1) discovered hrest]

/-- The scan panics as soon as the list holds a bucket whose `Name` is nil. -/
theorem scanBuckets_nameless (bucketName : String) (buckets : List Bucket) :
    ∀ (k : Nat) (discovered : Bool), (∃ b ∈ buckets, b.Name = none) →
      (scanBuckets bucketName k buckets discovered).1 = .panicked nilDereference := by
  induction buckets with
  | nil => intro k discovered h; simp at h
  | cons b rest ih =>
    intro k discovered h
    cases hname : b.Name with
    | none => simp [scanBuckets, hname]
    | some name =>
      have hrest : ∃ x ∈ rest, x.Name = none := by
        obtain ⟨x, hx, hxn⟩ := h
        rcases List.mem_cons.mp hx with rfl | hx
        · rw [hname] at hxn; cases hxn
        · exact ⟨x, hx, hxn⟩
      by_cases heq : name = bucketName
      · simp [scanBuckets, hname, heq, ih (k + 1) true hrest]
      · simp [scanBuckets, hname, heq, ih (k + 1) discovered hrest]

/-- The scan only prints: it makes no `CreateBucket` call. -/
theorem scanBuckets_createBucketCalls (bucketName : String) (buckets : List Bucket) :
    ∀ (k : Nat) (discovered : Bool),
      createBucketCalls (scanBuckets bucketName k buckets discovered).2 = [] := by
  induction buckets with
  | nil => intro k discovered; simp [scanBuckets, createBucketCalls]
  | cons b rest ih =>
    intro k discovered
    cases hname : b.Name with
    | none => simp [scanBuckets, hname, createBucketCalls]
    | some name =>
      have h1 := ih (k + 1) true
      have h2 := ih (k + 1) discovered
      simp only [createBucketCalls] at h1 h2 ⊢
      by_cases heq : name = bucketName
      · simp [scanBuckets, hname, heq, h1]
      · simp [scanBuckets, hname, heq, h2]

/-- The scan only prints: none of its effects is a service call. -/
theorem scanBuckets_steps (bucketName : String) (buckets : List Bucket) :
    ∀ (k : Nat) (discovered : Bool),
      steps (scanBuckets bucketName k buckets discovered).2 = [] := by
  induction buckets with
  | nil => intro k discovered; simp [scanBuckets, steps]
  | cons b rest ih =>
    intro k discovered
    cases hname : b.Name with
    | none => simp [scanBuckets, hname, steps]
    | some name =>
      have h1 := ih (k + 1) true
      have h2 := ih (k + 1) discovered
      simp only [steps] at h1 h2 ⊢
      by_cases heq : name = bucketName
      · simp [scanBuckets, hname, heq, h1, Event.step]
      · simp [scanBuckets, hname, heq, h2, Event.step]

/-- The `CreateBucket` calls of a trace that is a concatenation. -/
theorem createBucketCalls_append (xs ys : List Event) :
    createBucketCalls (xs ++ ys) = createBucketCalls xs ++ createBucketCalls ys := by
  simp [createBucketCalls]

/-- The steps of a trace that is a concatenation. -/
theorem steps_append (xs ys : List Event) : steps (xs ++ ys) = steps xs ++ steps ys := by
  simp [steps]

/-! ## `createS3Bucket` -/

/-- Whatever the client, a listing that returns an error and no output makes
`createS3Bucket` panic after the listing call and the log line, before any
`CreateBucket` call. -/
theorem createS3Bucket_no_output {σ : Type} (s3Client : S3client σ) (bucketName : String)
    (st : State σ) (e : GoError) (remote1 : σ)
    (hlist : s3Client.ListBuckets st.remote {} = ((none, some e), remote1)) :
    (createS3Bucket s3Client bucketName st).outcome = .panicked nilDereference ∧
      (createS3Bucket s3Client bucketName st).trace
        = [Event.ListBuckets {}, Event.log ("could not list the s3 buckets " ++ e.msg)] := by
  simp only [createS3Bucket, hlist, and_self]

/-- Whatever the client, a successful listing that holds a bucket without a
`Name` makes `createS3Bucket` panic in the loop, before any `CreateBucket` call. -/
theorem createS3Bucket_nameless_listing {σ : Type} (s3Client : S3client σ) (bucketName : String)
    (st : State σ) (out : ListBucketsOutput) (remote1 : σ)
    (hlist : s3Client.ListBuckets st.remote {} = ((some out, none), remote1))
    (hnameless : ∃ b ∈ out.Buckets, b.Name = none) :
    (createS3Bucket s3Client bucketName st).outcome = .panicked nilDereference ∧
      createBucketCalls (createS3Bucket s3Client bucketName st).trace = [] := by
  have hscan := scanBuckets_nameless bucketName out.Buckets 0 false hnameless
  have hcalls := scanBuckets_createBucketCalls bucketName out.Buckets 0 false
  rcases hs : scanBuckets bucketName 0 out.Buckets false with ⟨o, tr⟩
  rw [hs] at hscan hcalls
  simp only at hscan hcalls
  subst hscan
  simp only [createS3Bucket, hlist, hs, true_and]
  rw [List.singleton_append]
  show createBucketCalls ([Event.ListBuckets {}] ++ tr) = []
  rw [createBucketCalls_append, hcalls]
  rfl

/-- C1. When `ListBuckets` succeeds with a list of named buckets and the target
name is the name of at least one of them (anywhere, any number of times),
`createS3Bucket` makes no `CreateBucket` call and returns a nil error. -/
theorem createS3Bucket_existing_bucket {σ : Type} (s3Client : S3client σ) (bucketName : String)
    (st : State σ) (out : ListBucketsOutput) (remote1 : σ)
    (hlist : s3Client.ListBuckets st.remote {} = ((some out, none), remote1))
    (hnamed : ∀ b ∈ out.Buckets, b.Name ≠ none)
    (hmem : some bucketName ∈ out.Buckets.map Bucket.Name) :
    createBucketCalls (createS3Bucket s3Client bucketName st).trace = [] ∧
      (createS3Bucket s3Client bucketName st).outcome = .returned none := by
  have hscan := scanBuckets_named bucketName out.Buckets 0 false hnamed
  have hcalls := scanBuckets_createBucketCalls bucketName out.Buckets 0 false
  rcases hs : scanBuckets bucketName 0 out.Buckets false with ⟨o, tr⟩
  rw [hs] at hscan hcalls
  simp only [Bool.false_or] at hscan
  rw [decide_eq_true hmem] at hscan
  simp only at hscan hcalls
  subst hscan
  simp only [createS3Bucket, hlist, hs]
  simp only [Bool.not_true, Bool.false_eq_true, if_false, and_true]
  rw [List.singleton_append]
  show createBucketCalls ([Event.ListBuckets {}] ++ tr) = []
  rw [createBucketCalls_append, hcalls]
  rfl

/-- C1 at a concrete client: the target is listed twice, first and last. -/
theorem createS3Bucket_existing_bucket_witness :
    createBucketCalls (createS3Bucket nameSetClient "test-bucket"
        ⟨["test-bucket", "test-bucket-2", "test-bucket"], none⟩).trace = [] ∧
      (createS3Bucket nameSetClient "test-bucket"
        ⟨["test-bucket", "test-bucket-2", "test-bucket"], none⟩).outcome = .returned none :=
  createS3Bucket_existing_bucket nameSetClient "test-bucket"
    ⟨["test-bucket", "test-bucket-2", "test-bucket"], none⟩
    ⟨[⟨some "test-bucket"⟩, ⟨some "test-bucket-2"⟩, ⟨some "test-bucket"⟩]⟩
    ["test-bucket", "test-bucket-2", "test-bucket"] rfl (by decide) (by decide)

/-- C2. When `ListBuckets` succeeds with a list of named buckets none of which
has the target name, and the `CreateBucket` call succeeds with a location,
`createS3Bucket` makes exactly one `CreateBucket` call, for the target name, and
returns a nil error. -/
theorem createS3Bucket_missing_bucket {σ : Type} (s3Client : S3client σ) (bucketName : String)
    (st : State σ) (out : ListBucketsOutput) (remote1 remote2 : σ) (location : String)
    (hlist : s3Client.ListBuckets st.remote {} = ((some out, none), remote1))
    (hnamed : ∀ b ∈ out.Buckets, b.Name ≠ none)
    (habsent : some bucketName ∉ out.Buckets.map Bucket.Name)
    (hcreate : s3Client.CreateBucket remote1 ⟨some bucketName⟩
      = ((some ⟨some location⟩, none), remote2)) :
    createBucketCalls (createS3Bucket s3Client bucketName st).trace = [⟨some bucketName⟩] ∧
      (createS3Bucket s3Client bucketName st).outcome = .returned none := by
  have hscan := scanBuckets_named bucketName out.Buckets 0 false hnamed
  have hcalls := scanBuckets_createBucketCalls bucketName out.Buckets 0 false
  rcases hs : scanBuckets bucketName 0 out.Buckets false with ⟨o, tr⟩
  rw [hs] at hscan hcalls
  simp only [Bool.false_or] at hscan
  rw [decide_eq_false habsent] at hscan
  simp only at hscan hcalls
  subst hscan
  simp only [createS3Bucket, hlist, hs, hcreate]
  simp only [Bool.not_false, if_true, and_true]
  rw [List.singleton_append]
  show createBucketCalls ((([Event.ListBuckets {}] ++ tr) ++ [Event.CreateBucket ⟨some bucketName⟩])
    ++ [Event.stdout ("s3 Bucket location is " ++ location ++ "\n")]) = [⟨some bucketName⟩]
  rw [createBucketCalls_append, createBucketCalls_append, createBucketCalls_append, hcalls]
  rfl

/-- C2 at the scenario of `TestCreateS3Bucket`: buckets "test-bucket" and
"test-bucket-2" are listed, the target is "test-bucket-1". -/
theorem createS3Bucket_missing_bucket_witness :
    createBucketCalls TestCreateS3Bucket.trace = [⟨some "test-bucket-1"⟩] ∧
      TestCreateS3Bucket.outcome = .returned none :=
  createS3Bucket_missing_bucket
    (MockS3Client (some ⟨[⟨some "test-bucket"⟩, ⟨some "test-bucket-2"⟩]⟩) (some ⟨some "us-east-1"⟩))
    "test-bucket-1" ⟨(), none⟩ ⟨[⟨some "test-bucket"⟩, ⟨some "test-bucket-2"⟩]⟩ () () "us-east-1"
    rfl (by decide) (by decide) rfl

/-- C3. At a client whose `ListBuckets` returns an error and no output,
`createS3Bucket` logs the error and then panics on the nil output: it returns
nothing, hence no error, to its caller. It makes no `CreateBucket` call. -/
theorem createS3Bucket_listing_error_panics :
    (deniedListingClient.ListBuckets () {}).1 = (none, some ⟨"AccessDenied"⟩) ∧
      (createS3Bucket deniedListingClient "test-bucket-1" ⟨(), none⟩).outcome
        = .panicked nilDereference ∧
      (createS3Bucket deniedListingClient "test-bucket-1" ⟨(), none⟩).trace
        = [Event.ListBuckets {}, Event.log "could not list the s3 buckets AccessDenied"] ∧
      ∀ e : Option GoError,
        (createS3Bucket deniedListingClient "test-bucket-1" ⟨(), none⟩).outcome ≠ .returned e := by
  refine ⟨rfl, rfl, by decide, ?_⟩
  intro e h
  have hp : (createS3Bucket deniedListingClient "test-bucket-1" ⟨(), none⟩).outcome
      = .panicked nilDereference := rfl
  rw [hp] at h
  cases h

/-- C4 as stated fails: the listing below succeeds with a list that does not
contain the target name and `CreateBucket` would return an error, yet
`createS3Bucket` returns no error at all; it panics on the bucket without a
`Name` before it reaches `CreateBucket`. -/
theorem createS3Bucket_nameless_bucket_panics :
    (namelessListingClient.ListBuckets () {}).1 = (some ⟨[⟨none⟩]⟩, none) ∧
      some "test-bucket-1" ∉ ([⟨none⟩] : List Bucket).map Bucket.Name ∧
      (namelessListingClient.CreateBucket () ⟨some "test-bucket-1"⟩).1
        = (none, some ⟨"BucketAlreadyExists"⟩) ∧
      (createS3Bucket namelessListingClient "test-bucket-1" ⟨(), none⟩).outcome
        ≠ .returned (some ⟨"unable to create s3 bucket BucketAlreadyExists"⟩) ∧
      (createS3Bucket namelessListingClient "test-bucket-1" ⟨(), none⟩).outcome
        = .panicked nilDereference ∧
      createBucketCalls (createS3Bucket namelessListingClient "test-bucket-1" ⟨(), none⟩).trace
        = [] := by
  refine ⟨rfl, by decide, rfl, by decide, rfl, by decide⟩

/-- C4, amended. When `ListBuckets` succeeds with a list of named buckets none
of which has the target name, and the `CreateBucket` call returns an error `e`,
`createS3Bucket` returns a non-nil error whose message is
"unable to create s3 bucket " followed by the message of `e`. -/
theorem createS3Bucket_create_error {σ : Type} (s3Client : S3client σ) (bucketName : String)
    (st : State σ) (out : ListBucketsOutput) (remote1 remote2 : σ)
    (bucketOutput : Option CreateBucketOutput) (e : GoError)
    (hlist : s3Client.ListBuckets st.remote {} = ((some out, none), remote1))
    (hnamed : ∀ b ∈ out.Buckets, b.Name ≠ none)
    (habsent : some bucketName ∉ out.Buckets.map Bucket.Name)
    (hcreate : s3Client.CreateBucket remote1 ⟨some bucketName⟩ = ((bucketOutput, some e), remote2)) :
    (createS3Bucket s3Client bucketName st).outcome
      = .returned (some ⟨"unable to create s3 bucket " ++ e.msg⟩) := by
  have hscan := scanBuckets_named bucketName out.Buckets 0 false hnamed
  rcases hs : scanBuckets bucketName 0 out.Buckets false with ⟨o, tr⟩
  rw [hs] at hscan
  simp only [Bool.false_or] at hscan
  rw [decide_eq_false habsent] at hscan
  subst hscan
  simp only [createS3Bucket, hlist, hs, hcreate]
  simp [Errorf]

/-- C4, amended, at a concrete client that lists two named buckets and refuses
the creation. -/
theorem createS3Bucket_create_error_witness :
    (createS3Bucket refusingClient "test-bucket-1" ⟨(), none⟩).outcome
      = .returned (some ⟨"unable to create s3 bucket " ++ (⟨"AccessDenied"⟩ : GoError).msg⟩) :=
  createS3Bucket_create_error refusingClient "test-bucket-1" ⟨(), none⟩
    ⟨[⟨some "test-bucket"⟩, ⟨some "test-bucket-2"⟩]⟩ () () none ⟨"AccessDenied"⟩
    rfl (by decide) (by decide) rfl

/-! ## `downloadFromS3` -/

/-- C5. When `Download` returns no error but a byte count different from the
length of what is in the buffer, `downloadFromS3` returns a nil payload and a
non-nil error. -/
theorem downloadFromS3_count_mismatch {σ : Type} (downloader : s3Downloader σ)
    (bucketName : String) (st : State σ) (n : Int) (written : WriteAtBuffer) (remote1 : σ)
    (hdown : downloader.Download st.remote (NewWriteAtBuffer []) ⟨some bucketName, some "test.txt"⟩
      = ((n, none), written, remote1))
    (hne : n ≠ (written.Bytes.length : Int)) :
    ∃ e : GoError, (downloadFromS3 downloader bucketName st).outcome = .returned (none, some e) := by
  refine ⟨⟨"number of bytes recevied does not match: " ++ toString n ++ " vs "
    ++ toString written.Bytes.length⟩, ?_⟩
  simp only [downloadFromS3, hdown]
  rw [if_pos hne]

/-- C5 at a downloader that writes 5 bytes and reports 11. -/
theorem downloadFromS3_count_mismatch_witness :
    ∃ e : GoError,
      (downloadFromS3 (helloDownloader 11) "test-bucket" ⟨(), none⟩).outcome
        = .returned (none, some e) :=
  downloadFromS3_count_mismatch (helloDownloader 11) "test-bucket" ⟨(), none⟩ 11
    ((NewWriteAtBuffer []).WriteAt [72, 101, 108, 108, 111] 0) () rfl (by decide)

/-- C6. When `Download` returns no error and a byte count equal to the length
of what is in the buffer, `downloadFromS3` returns a nil error and exactly the
contents of the buffer. -/
theorem downloadFromS3_payload {σ : Type} (downloader : s3Downloader σ)
    (bucketName : String) (st : State σ) (n : Int) (written : WriteAtBuffer) (remote1 : σ)
    (hdown : downloader.Download st.remote (NewWriteAtBuffer []) ⟨some bucketName, some "test.txt"⟩
      = ((n, none), written, remote1))
    (heq : n = (written.Bytes.length : Int)) :
    (downloadFromS3 downloader bucketName st).outcome = .returned (some written.Bytes, none) := by
  simp only [downloadFromS3, hdown]
  rw [if_neg (not_not.mpr heq)]

/-- C6 at a downloader that writes the 5 bytes of "Hello" and reports 5. -/
theorem downloadFromS3_payload_witness :
    (downloadFromS3 (helloDownloader 5) "test-bucket" ⟨(), none⟩).outcome
      = .returned (some [72, 101, 108, 108, 111], none) :=
  downloadFromS3_payload (helloDownloader 5) "test-bucket" ⟨(), none⟩ 5
    ((NewWriteAtBuffer []).WriteAt [72, 101, 108, 108, 111] 0) () rfl (by decide)

/-- C8. When `Download` returns an error `e`, whatever count it reports and
whatever it left in the buffer, `downloadFromS3` returns a nil payload and the
error "download error: " followed by the message of `e`. -/
theorem downloadFromS3_download_error {σ : Type} (downloader : s3Downloader σ)
    (bucketName : String) (st : State σ) (n : Int) (written : WriteAtBuffer) (remote1 : σ)
    (e : GoError)
    (hdown : downloader.Download st.remote (NewWriteAtBuffer []) ⟨some bucketName, some "test.txt"⟩
      = ((n, some e), written, remote1)) :
    (downloadFromS3 downloader bucketName st).outcome
      = .returned (none, some ⟨"download error: " ++ e.msg⟩) := by
  simp only [downloadFromS3, hdown, Errorf]

/-- C8 at a failing downloader whose reported count equals the buffer length:
the result is the download error all the same. -/
theorem downloadFromS3_download_error_witness :
    (downloadFromS3 (failingDownloader 2) "test-bucket" ⟨(), none⟩).outcome
      = .returned (none, some ⟨"download error: " ++ (⟨"NoSuchKey"⟩ : GoError).msg⟩) :=
  downloadFromS3_download_error (failingDownloader 2) "test-bucket" ⟨(), none⟩ 2
    ((NewWriteAtBuffer []).WriteAt [72, 101] 0) () ⟨"NoSuchKey"⟩ rfl

/-! ## `uploadToS3Bucket` -/

/-- C7. `uploadToS3Bucket` returns nil when `Upload` returns no error, whatever
the output; it returns the error "unable to upload to s3 bucket " followed by
the message of `e` when `Upload` returns the error `e`; so it returns a non-nil
error exactly when `Upload` does. -/
theorem uploadToS3Bucket_error_iff {σ : Type} (uploader : S3Uploader σ) (bucketName : String)
    (st : State σ) :
    (∀ (output : Option UploadOutput) (remote1 : σ),
        uploader.Upload st.remote ⟨some bucketName, some "test/test.text", NewReader "Hello Go!!!"⟩
          = ((output, none), remote1) →
        (uploadToS3Bucket uploader bucketName st).outcome = .returned none) ∧
      (∀ (output : Option UploadOutput) (e : GoError) (remote1 : σ),
        uploader.Upload st.remote ⟨some bucketName, some "test/test.text", NewReader "Hello Go!!!"⟩
          = ((output, some e), remote1) →
        (uploadToS3Bucket uploader bucketName st).outcome
          = .returned (some ⟨"unable to upload to s3 bucket " ++ e.msg⟩)) ∧
      ((∃ e : GoError, (uploadToS3Bucket uploader bucketName st).outcome = .returned (some e)) ↔
        ∃ e : GoError,
          (uploader.Upload st.remote
            ⟨some bucketName, some "test/test.text", NewReader "Hello Go!!!"⟩).1.2 = some e) := by
  refine ⟨?_, ?_, ?_⟩
  · intro output remote1 h
    simp only [uploadToS3Bucket, h]
  · intro output e remote1 h
    simp only [uploadToS3Bucket, h, Errorf]
  · cases h : (uploader.Upload st.remote
        ⟨some bucketName, some "test/test.text", NewReader "Hello Go!!!"⟩).1.2 with
    | none => simp [uploadToS3Bucket, h]
    | some e => simp [uploadToS3Bucket, h]

/-- C7 at the uploader of `TestUploadToS3Bucket`, which succeeds, and at an
uploader that is refused. -/
theorem uploadToS3Bucket_error_iff_witness :
    TestUploadToS3Bucket.outcome = .returned none ∧
      (uploadToS3Bucket (failingUploader (some ⟨""⟩)) "test-bucket" ⟨(), none⟩).outcome
        = .returned (some ⟨"unable to upload to s3 bucket " ++ (⟨"AccessDenied"⟩ : GoError).msg⟩) :=
  ⟨(uploadToS3Bucket_error_iff (MockS3Uploader (some ⟨""⟩)) "testdata/test.txt" ⟨(), none⟩).1
      (some ⟨""⟩) () rfl,
    (uploadToS3Bucket_error_iff (failingUploader (some ⟨""⟩)) "test-bucket" ⟨(), none⟩).2.1
      (some ⟨""⟩) ⟨"AccessDenied"⟩ () rfl⟩

/-! ## The requests -/

/-- C10. `uploadToS3Bucket` makes one `Upload` request, for the given bucket,
key "test/test.text" and the 11 bytes of "Hello Go!!!"; `downloadFromS3` makes
one `Download` request, for the given bucket and key "test.txt"; the two keys
differ. -/
theorem upload_download_requests {σ : Type} (uploader : S3Uploader σ)
    (downloader : s3Downloader σ) (b : String) (st st' : State σ) :
    uploadCalls (uploadToS3Bucket uploader b st).trace
        = [⟨some b, some "test/test.text", [72, 101, 108, 108, 111, 32, 71, 111, 33, 33, 33]⟩] ∧
      "Hello Go!!!".toUTF8.data.toList = [72, 101, 108, 108, 111, 32, 71, 111, 33, 33, 33] ∧
      ([72, 101, 108, 108, 111, 32, 71, 111, 33, 33, 33] : List UInt8).length = 11 ∧
      downloadCalls (downloadFromS3 downloader b st').trace = [⟨some b, some "test.txt"⟩] ∧
      (∀ up ∈ uploadCalls (uploadToS3Bucket uploader b st).trace,
        ∀ down ∈ downloadCalls (downloadFromS3 downloader b st').trace, up.Key ≠ down.Key) := by
  have hbody : NewReader "Hello Go!!!" = [72, 101, 108, 108, 111, 32, 71, 111, 33, 33, 33] := by
    decide
  have hup : uploadCalls (uploadToS3Bucket uploader b st).trace
      = [⟨some b, some "test/test.text", [72, 101, 108, 108, 111, 32, 71, 111, 33, 33, 33]⟩] := by
    unfold uploadToS3Bucket
    rw [hbody]
    simp only
    split <;> rfl
  have hdown : downloadCalls (downloadFromS3 downloader b st').trace
      = [⟨some b, some "test.txt"⟩] := by
    unfold downloadFromS3
    simp only
    split
    · rfl
    · split <;> rfl
  refine ⟨hup, hbody, rfl, hdown, ?_⟩
  intro up hu down hd
  rw [hup] at hu
  rw [hdown] at hd
  rw [List.mem_singleton] at hu hd
  subst hu
  subst hd
  show some "test/test.text" ≠ some "test.txt"
  decide

/-! ## `main` -/

/-- The service calls of `createS3Bucket`: the listing, then at most one creation. -/
theorem createS3Bucket_steps {σ : Type} (s3Client : S3client σ) (bucketName : String)
    (st : State σ) :
    steps (createS3Bucket s3Client bucketName st).trace = [1] ∨
      steps (createS3Bucket s3Client bucketName st).trace = [1, 1] := by
  have hscan := scanBuckets_steps bucketName
  have hlog : ∀ o : Option GoError, steps (Event.ListBuckets {} ::
      (match o with
       | some e => [Event.log ("could not list the s3 buckets " ++ e.msg)]
       | none => [])) = [1] := by
    intro o
    cases o <;> rfl
  unfold createS3Bucket
  simp only
  split
  · left
    exact hlog _
  · rename_i out _
    split
    · rename_i reason tr2 hs
      left
      have h2 := hscan out.Buckets 0 false
      rw [hs] at h2
      rw [steps_append, hlog, h2]
      rfl
    · rename_i discovered tr2 hs
      have h2 := hscan out.Buckets 0 false
      rw [hs] at h2
      simp only at h2
      split
      · right
        split
        · rw [steps_append, steps_append, hlog, h2]
          rfl
        · split
          · rw [steps_append, steps_append, hlog, h2]
            rfl
          · split
            · rw [steps_append, steps_append, hlog, h2]
              rfl
            · rw [steps_append, steps_append, steps_append, hlog, h2]
              rfl
      · left
        rw [steps_append, hlog, h2]
        rfl

/-- A full run: on an account without buckets all four steps succeed, the bucket
is created, and the exit code is 0. -/
theorem main_healthy_run :
    (main healthySDK []).exitCode = 0 ∧
      steps (main healthySDK []).trace = [0, 1, 1, 2, 3] ∧
      (main healthySDK []).state.remote = ["testing-aws-go-yjhu"] ∧
      createBucketCalls (main healthySDK []).trace = [⟨some "testing-aws-go-yjhu"⟩] := by
  refine ⟨by decide, by decide, by decide, by decide⟩

/-- A second run on the same account: the bucket exists, nothing is created. -/
theorem main_second_run :
    (main healthySDK ["testing-aws-go-yjhu"]).exitCode = 0 ∧
      steps (main healthySDK ["testing-aws-go-yjhu"]).trace = [0, 1, 2, 3] ∧
      (main healthySDK ["testing-aws-go-yjhu"]).state.remote = ["testing-aws-go-yjhu"] := by
  refine ⟨by decide, by decide, by decide⟩

/-- A run in which the listing fails: the process ends in the panic of
`createS3Bucket`, with the exit code of a panic, before any upload. -/
theorem main_listing_failure_run :
    (main deniedListingSDK ()).exitCode = 2 ∧ steps (main deniedListingSDK ()).trace = [0, 1] := by
  refine ⟨by decide, by decide⟩

end S3Upload
